import Mathlib

/-!
# Verification of the markdown2word orchestration layer

Shallow embedding of the two source files of `tangaobing/markdown2word`
(`markdown_converter.py` and `convert.py`) and proofs of the claims about
them.

Modelling conventions:
* Filesystem paths are strings; the filesystem is a pair of lists (files
  that exist, directories that exist).  `os.path.exists` is membership in
  either list.
* The external conversion engine (`pypandoc.convert_file` /
  `pypandoc.convert_text`) is an oracle: a function from the invocation
  (input, output path, extra argument list) and the filesystem before the
  call to an `EngineResult`, which says whether the call raised a Python
  exception, what filesystem it left behind, and an opaque reported value
  that the calling code never inspects.
* Python exceptions that the repository's own code raises or catches are
  modelled explicitly (`PyResult`); `except Exception` handlers are the
  `match` on the oracle's `raises` field.
* CPython call binding: passing a keyword argument whose name is not a
  parameter of the callee raises `TypeError` in the caller, before the
  callee's body (and hence its `try`/`except`) runs.  Resolving a global
  name that is not defined in the module raises `NameError` at the point
  of use.  Both are modelled by membership tests in the explicit lists of
  parameter / module-level names copied from the source.
-/

/-- A filesystem snapshot: the set of existing regular files and the set of
existing directories, as lists of path strings. -/
structure FS where
  files : List String
  dirs : List String
deriving DecidableEq, Repr

/-- `os.path.exists`: the path is an existing file or an existing directory. -/
def FS.existsPath (fs : FS) (p : String) : Bool :=
  fs.files.contains p || fs.dirs.contains p

/-- `os.makedirs` / `Path.mkdir(parents=True, exist_ok=True)`: record the
directory as existing (ancestor creation does not matter for any claim, so
only the directory itself is recorded). -/
def FS.mkdirParents (fs : FS) (d : String) : FS :=
  { fs with dirs := d :: fs.dirs }

/-- Split a character list at `/` separators; there is always at least one
part and empty parts are preserved (the semantics of `"a/b".split("/")`). -/
def splitOnSlash : List Char → List (List Char)
  | [] => [[]]
  | c :: cs =>
    match splitOnSlash cs with
    | [] => [[]]
    | h :: t => if c == '/' then [] :: h :: t else (c :: h) :: t

/-- Join character-list parts with `/`. -/
def joinSlash : List (List Char) → List Char
  | [] => []
  | [x] => x
  | x :: xs => x ++ '/' :: joinSlash xs

/-- `os.path.dirname` for forward-slash paths: everything before the last
separator, empty when there is none. -/
def dirname (p : String) : String :=
  String.mk (joinSlash (splitOnSlash p.toList).dropLast)

/-- The last path component (`Path.name` / `os.path.basename`). -/
def basename (p : String) : String :=
  String.mk (((splitOnSlash p.toList).getLast?).getD [])

/-- Index of the last `.` in a list of characters, if any. -/
def rfindDot : List Char → Option Nat
  | [] => none
  | c :: cs =>
    match rfindDot cs with
    | some i => some (i + 1)
    | none => if c == '.' then some 0 else none

/-- `pathlib.PurePath.stem` on a file name: the name without its suffix,
where the suffix starts at the last dot provided that dot is neither the
first nor the last character of the name. -/
def Path.stem (name : String) : String :=
  let cs := name.toList
  match rfindDot cs with
  | some i => if 0 < i && i + 1 < cs.length then String.mk (cs.take i) else name
  | none => name

/-- Shell-style glob matching on the characters of a name: `*` matches any
run of characters, `?` any single character, everything else literally.
Structural recursion on a fuel argument (each step shrinks the combined
length of pattern and name, so `globMatch` below supplies enough fuel). -/
def globMatchFuel : Nat → List Char → List Char → Bool
  | 0, _, _ => false
  | _ + 1, [], cs => cs.isEmpty
  | fuel + 1, '*' :: ps, [] => globMatchFuel fuel ps []
  | fuel + 1, '*' :: ps, c :: cs =>
    globMatchFuel fuel ps (c :: cs) || globMatchFuel fuel ('*' :: ps) cs
  | _ + 1, '?' :: _, [] => false
  | fuel + 1, '?' :: ps, _ :: cs => globMatchFuel fuel ps cs
  | _ + 1, _ :: _, [] => false
  | fuel + 1, p :: ps, c :: cs => p == c && globMatchFuel fuel ps cs

/-- Glob matching with sufficient fuel. -/
def globMatch (ps cs : List Char) : Bool :=
  globMatchFuel (ps.length + cs.length + 1) ps cs

/-- Whether a string starts with a dot. -/
def startsWithDot (s : String) : Bool :=
  match s.toList with
  | [] => false
  | c :: _ => c == '.'

/-- `pathlib.Path.glob` name matching: glob match, and a leading-dot name is
hidden unless the pattern itself starts with a dot. -/
def globNameMatches (pattern name : String) : Bool :=
  (startsWithDot pattern || !startsWithDot name) &&
    globMatch pattern.toList name.toList

/-- `Path(dir).glob(pattern)` (non-recursive): the existing files whose
parent is `dir` and whose name matches `pattern`, in filesystem-enumeration
order (the order of `FS.files`). -/
def FS.glob (fs : FS) (dir pattern : String) : List String :=
  fs.files.filter (fun f => dirname f == dir && globNameMatches pattern (basename f))

/-! ## Engine Locator (`MarkdownConverter._find_pandoc`) -/

/-- The hard-coded candidate list of `_find_pandoc` (markdown_converter.py
lines 81-90), with the `USERNAME` environment variable substituted. -/
def possible_paths (username : String) : List String :=
  [ "C:\\Program Files\\Pandoc\\pandoc.exe"
  , "C:\\Program Files (x86)\\Pandoc\\pandoc.exe"
  , "C:\\Users\\" ++ username ++ "\\AppData\\Local\\Pandoc\\pandoc.exe"
  , "C:\\ProgramData\\chocolatey\\bin\\pandoc.exe"
  , "C:\\Users\\" ++ username ++ "\\scoop\\apps\\pandoc\\current\\pandoc.exe" ]

/-- Host environment seen by the locator: which paths exist, and whether
invoking a given command with `--version` exits successfully (no exception
from `subprocess.run(..., check=True)` and return code 0). -/
structure ProbeEnv where
  pathExists : String → Bool
  probeOk : String → Bool

/-- `MarkdownConverter._find_pandoc` (markdown_converter.py lines 79-104):
return the first candidate path that exists on the filesystem; if none
exists, run `pandoc --version` through the process search path (no timeout
is passed to `subprocess.run`) and return the sentinel `"pandoc"` when that
invocation succeeds, `None` otherwise. -/
def find_pandoc (env : ProbeEnv) (username : String) : Option String :=
  match (possible_paths username).find? env.pathExists with
  | some p => some p
  | none => if env.probeOk "pandoc" then some "pandoc" else none

/-- Modelled from the claim's words, for comparison with `find_pandoc`:
iterate the candidates in order with the search-path sentinel last; for
each candidate that exists on the filesystem (existence check skipped for
the sentinel), run it with a version flag, and return the first candidate
whose invocation exits with a success status. -/
def find_pandoc_claimed (env : ProbeEnv) (username : String) : Option String :=
  (possible_paths username ++ ["pandoc"]).find?
    (fun p => (p == "pandoc" || env.pathExists p) && env.probeOk p)

/-! ## Conversion Invoker (`MarkdownConverter.convert_file` / `convert_text`) -/

/-- Outcome of one engine invocation (`pypandoc.convert_file` /
`pypandoc.convert_text`): `raises` is the class name of the Python
exception if the call raised, `fsAfter` the filesystem after the call
(side effects happen even when it raises), `reported` the value the call
returned, which the repository's code never inspects. -/
structure EngineResult where
  raises : Option String
  fsAfter : FS
  reported : String
deriving DecidableEq, Repr

/-- The engine oracle: input (path or inline text), output path, extra
argument list, and the filesystem before the call determine the result. -/
def Engine : Type := String → String → List String → FS → EngineResult

/-- Argument construction of `convert_file` (markdown_converter.py lines
135-151): start from `extra_args or []`, then append the reference-template
flag when `template` is truthy and exists, then `--toc` when requested,
then `--number-sections` when requested. -/
def buildArgs (fs : FS) (template : Option String) (toc number_sections : Bool)
    (extra_args : Option (List String)) : List String :=
  let args := extra_args.getD []
  let args := match template with
    | some t => if t != "" && fs.existsPath t then args ++ ["--reference-doc", t] else args
    | none => args
  let args := if toc then args ++ ["--toc"] else args
  let args := if number_sections then args ++ ["--number-sections"] else args
  args

/-- Argument construction of `convert_text` (markdown_converter.py lines
207-217): same option flags, but there is no extra-arguments parameter. -/
def buildArgsText (fs : FS) (template : Option String) (toc number_sections : Bool) :
    List String :=
  let args : List String := []
  let args := match template with
    | some t => if t != "" && fs.existsPath t then args ++ ["--reference-doc", t] else args
    | none => args
  let args := if toc then args ++ ["--toc"] else args
  let args := if number_sections then args ++ ["--number-sections"] else args
  args

/-- Output-directory creation (markdown_converter.py lines 153-156 and
219-222): if the dirname of the output file is non-empty and does not
exist, create it. -/
def ensureDir (fs : FS) (output_file : String) : FS :=
  let d := dirname output_file
  if d != "" && !fs.existsPath d then fs.mkdirParents d else fs

/-- What one call to `convert_file` / `convert_text` produced: the returned
boolean, the filesystem afterwards, whether the engine was invoked, and
with which extra-argument list. -/
structure ConvertOutcome where
  result : Bool
  fs : FS
  engineCalled : Bool
  argsPassed : Option (List String)
deriving Repr

/-- `MarkdownConverter.convert_file` (markdown_converter.py lines 106-183).
Inside `try`: return `False` when the input file does not exist; build the
argument list; create the output directory if missing; invoke the engine;
return whether the output file exists afterwards.  `except Exception`
turns any exception from the engine invocation into `False`. -/
def MarkdownConverter.convert_file (engine : Engine) (fs : FS)
    (input_file output_file : String) (template : Option String)
    (toc number_sections : Bool) (extra_args : Option (List String)) : ConvertOutcome :=
  if !fs.existsPath input_file then
    ⟨false, fs, false, none⟩
  else
    let args := buildArgs fs template toc number_sections extra_args
    let fs1 := ensureDir fs output_file
    let er := engine input_file output_file args fs1
    match er.raises with
    | some _ => ⟨false, er.fsAfter, true, some args⟩
    | none => ⟨er.fsAfter.existsPath output_file, er.fsAfter, true, some args⟩

/-- `MarkdownConverter.convert_text` (markdown_converter.py lines 185-245):
same shape as `convert_file` but with inline text, no input-existence
check and no extra arguments. -/
def MarkdownConverter.convert_text (engine : Engine) (fs : FS)
    (markdown_text output_file : String) (template : Option String)
    (toc number_sections : Bool) : ConvertOutcome :=
  let args := buildArgsText fs template toc number_sections
  let fs1 := ensureDir fs output_file
  let er := engine markdown_text output_file args fs1
  match er.raises with
  | some _ => ⟨false, er.fsAfter, true, some args⟩
  | none => ⟨er.fsAfter.existsPath output_file, er.fsAfter, true, some args⟩

/-! ## Batch Driver (`MarkdownConverter.batch_convert`) -/

/-- Insertion of `results[key] = value` into a Python dict modelled as an
insertion-ordered association list: overwrite in place when the key is
present, append otherwise. -/
def dictInsert (d : List (String × Bool)) (k : String) (v : Bool) : List (String × Bool) :=
  if d.any (fun kv => kv.1 == k) then
    d.map (fun kv => if kv.1 == k then (k, v) else kv)
  else
    d ++ [(k, v)]

/-- The derived output path of one batch item (markdown_converter.py line
291 and convert.py line 117): `output_dir / (stem of the input + ".docx")`. -/
def derivedOutput (output_dir md_file : String) : String :=
  output_dir ++ "/" ++ Path.stem (basename md_file) ++ ".docx"

/-- State of `batch_convert`'s loop: the `results` dict, `success_count`,
and the filesystem. -/
structure BatchOutcome where
  results : List (String × Bool)
  success_count : Nat
  fs : FS
deriving Repr

/-- One iteration of the loop of `batch_convert` (markdown_converter.py
lines 290-305). -/
def batchStep (engine : Engine) (output_dir : String) (template : Option String)
    (toc number_sections : Bool) (acc : BatchOutcome) (md_file : String) : BatchOutcome :=
  let co := MarkdownConverter.convert_file engine acc.fs md_file
    (derivedOutput output_dir md_file) template toc number_sections none
  { results := dictInsert acc.results (basename md_file) co.result
  , success_count := acc.success_count + (if co.result then 1 else 0)
  , fs := co.fs }

/-- `MarkdownConverter.batch_convert` (markdown_converter.py lines
247-308): return an empty dict when the input directory does not exist;
create the output directory; glob the input directory; return an empty
dict when nothing matches; otherwise convert each matched file in order,
recording the boolean result under the file's name. -/
def MarkdownConverter.batch_convert (engine : Engine) (fs : FS)
    (input_dir output_dir : String) (template : Option String)
    (pattern : String) (toc number_sections : Bool) : BatchOutcome :=
  if !fs.existsPath input_dir then
    ⟨[], 0, fs⟩
  else
    let fs1 := fs.mkdirParents output_dir
    let md_files := fs1.glob input_dir pattern
    if md_files.isEmpty then
      ⟨[], 0, fs1⟩
    else
      md_files.foldl (batchStep engine output_dir template toc number_sections) ⟨[], 0, fs1⟩

/-! ## CLI front end (`convert.py`) -/

/-- Result of running a piece of Python code: a normal value, or an
uncaught exception identified by its class name. -/
inductive PyResult (α : Type) where
  | ok : α → PyResult α
  | exn : String → PyResult α
deriving DecidableEq, Repr

/-- The parameter names of `MarkdownConverter.convert_file`
(markdown_converter.py lines 106-112), against which CPython binds keyword
arguments. -/
def convert_file_params : List String :=
  ["input_file", "output_file", "template", "toc", "number_sections", "extra_args"]

/-- The keyword-argument names used by the call to `converter.convert_file`
in `convert_single_file` (convert.py lines 69-74). -/
def convert_single_file_kwargs : List String :=
  ["add_toc", "number_sections"]

/-- The module-level names defined in convert.py (its function definitions
and imports); resolving any other global name raises `NameError`. -/
def convert_py_globals : List String :=
  ["os", "sys", "argparse", "Path", "MarkdownConverter",
   "find_pandoc_paths", "get_converter", "convert_single_file",
   "batch_convert", "interactive_mode", "main"]

/-- `Path.with_suffix('.docx')` used to default the output file
(convert.py lines 58-60). -/
def with_suffix (p suf : String) : String :=
  let d := dirname p
  (if d == "" then "" else d ++ "/") ++ Path.stem (basename p) ++ suf

/-- `convert_single_file` (convert.py lines 55-85): default the output
path, fail fast when the input is missing, then call
`converter.convert_file(..., add_toc=..., number_sections=...)`.  CPython
binds the keywords against `convert_file`'s parameters before the body
runs, so the unknown keyword `add_toc` raises `TypeError` at the call
site, outside `convert_file`'s `try` block.  The second component records
whether the conversion engine was invoked.  (`get_converter()` is modelled
as returning normally: `import pypandoc` is assumed to succeed.) -/
def convert_single_file (engine : Engine) (fs : FS) (input_file : String)
    (output_file : Option String) (add_toc number_sections : Bool) :
    PyResult Bool × Bool :=
  let out := output_file.getD (with_suffix input_file ".docx")
  if !fs.existsPath input_file then
    (.ok false, false)
  else if convert_single_file_kwargs.all (fun k => convert_file_params.contains k) then
    let co := MarkdownConverter.convert_file engine fs input_file out none
      add_toc number_sections none
    (.ok co.result, co.engineCalled)
  else
    (.exn "TypeError", false)

/-- `batch_convert` of convert.py (lines 88-127): fail when the input
directory is missing, default the output directory to `input_dir/converted`,
create it, glob; when files match, the line `converter = setup_converter()`
resolves the global name `setup_converter`, which convert.py never defines
(the defined helper is `get_converter`), raising `NameError`.  The second
component is the filesystem afterwards. -/
def Convert.batch_convert (engine : Engine) (fs : FS) (input_dir : String)
    (output_dir : Option String) (pattern : String) : PyResult Bool × FS :=
  if !fs.existsPath input_dir then
    (.ok false, fs)
  else
    let odir := output_dir.getD (input_dir ++ "/converted")
    let fs1 := fs.mkdirParents odir
    let md_files := fs1.glob input_dir pattern
    if md_files.isEmpty then
      (.ok false, fs1)
    else if convert_py_globals.contains "setup_converter" then
      let r := md_files.foldl (fun (acc : Nat × FS) f =>
        let co := MarkdownConverter.convert_file engine acc.2 f
          (derivedOutput odir f) none false false none
        (acc.1 + (if co.result then 1 else 0), co.fs)) (0, fs1)
      (.ok (decide (0 < r.1)), r.2)
    else
      (.exn "NameError", fs1)

/-! ## Witness environments and engines -/

/-- An engine that returns normally and creates the requested output file. -/
def okEngine : Engine := fun _ o _ fs => ⟨none, ⟨o :: fs.files, fs.dirs⟩, ""⟩

/-- An engine that returns normally but writes nothing. -/
def noopEngine : Engine := fun _ _ _ fs => ⟨none, fs, ""⟩

/-- An engine that raises on every invocation. -/
def raisingEngine : Engine := fun _ _ _ fs => ⟨some "RuntimeError", fs, ""⟩

/-- An engine that succeeds on `docs/a.md` and raises on everything else. -/
def mixedEngine : Engine := fun i o _ fs =>
  if i == "docs/a.md" then ⟨none, ⟨o :: fs.files, fs.dirs⟩, ""⟩
  else ⟨some "RuntimeError", fs, ""⟩

/-- A host on which the first hard-coded candidate path exists but every
probe invocation fails. -/
def cexProbeEnv : ProbeEnv :=
  ⟨fun p => p == "C:\\Program Files\\Pandoc\\pandoc.exe", fun _ => false⟩

/-- Same filesystem as `cexProbeEnv`, but every probe of a concrete
candidate path succeeds (the sentinel probe still fails). -/
def cexProbeEnv2 : ProbeEnv :=
  ⟨fun p => p == "C:\\Program Files\\Pandoc\\pandoc.exe", fun p => p != "pandoc"⟩

/-! ## Helper lemmas -/

/-- Creating the output directory does not change which files a glob sees. -/
@[simp]
theorem FS.glob_mkdirParents (fs : FS) (d i p : String) :
    (fs.mkdirParents d).glob i p = fs.glob i p := rfl

/-- Inserting a fresh key into the dict model appends the binding. -/
theorem dictInsert_of_not_mem (d : List (String × Bool)) (k : String) (v : Bool)
    (h : k ∉ d.map Prod.fst) : dictInsert d k v = d ++ [(k, v)] := by
  have h' : ¬ (d.any (fun kv => kv.1 == k) = true) := by
    simp only [List.any_eq_true, beq_iff_eq]
    rintro ⟨kv, hkv, hk⟩
    exact h (hk ▸ List.mem_map_of_mem Prod.fst hkv)
  unfold dictInsert
  rw [if_neg h']

/-- The last dot of `cs ++ ".md"` is the dot introduced by `".md"`. -/
theorem rfindDot_append_md (cs : List Char) :
    rfindDot (cs ++ ['.', 'm', 'd']) = some cs.length := by
  induction cs with
  | nil => rfl
  | cons c cs ih => simp [rfindDot, ih]

/-- `pathlib` stem of a name of the form `X.md` with nonempty `X` is `X`. -/
theorem stem_append_md (X : String) (hX : X ≠ "") : Path.stem (X ++ ".md") = X := by
  rcases X with ⟨l⟩
  have hlen : 0 < l.length := by
    cases l with
    | nil => exact absurd rfl hX
    | cons c cs => simp
  have h1 : (String.mk l ++ ".md").toList = l ++ ['.', 'm', 'd'] := rfl
  unfold Path.stem
  rw [h1]
  simp [rfindDot_append_md, hlen, List.take_left]

/-! ## Claims -/

/-- C1 (counterexample): the claim says the locator probes each existing
candidate with a version flag and returns the first whose invocation
succeeds.  On a host where the first candidate path exists but every probe
invocation fails, `_find_pandoc` nevertheless returns that candidate — it
returns a candidate whose invocation does not exit with a success status,
and its result differs from the claimed behavior. -/
theorem C1_locator_counterexample :
    find_pandoc cexProbeEnv "alice" = some "C:\\Program Files\\Pandoc\\pandoc.exe"
    ∧ cexProbeEnv.probeOk "C:\\Program Files\\Pandoc\\pandoc.exe" = false
    ∧ find_pandoc_claimed cexProbeEnv "alice" = none := by
  decide

/-- C1 (amended): `_find_pandoc` iterates the fixed candidate paths in
order and returns the first one that exists on the filesystem without
running it at all (its result is independent of the probe outcomes on the
concrete candidate paths); only when no candidate exists does it invoke the
search-path sentinel with a version flag — under no timeout — returning
the sentinel on success and none on failure. -/
theorem C1_locator_first_existing_unprobed (env env2 : ProbeEnv) (username : String)
    (hpe : ∀ p, env.pathExists p = env2.pathExists p)
    (hsent : env.probeOk "pandoc" = env2.probeOk "pandoc") :
    find_pandoc env username = find_pandoc env2 username
    ∧ (∀ p, (possible_paths username).find? env.pathExists = some p →
        find_pandoc env username = some p)
    ∧ ((possible_paths username).find? env.pathExists = none →
        find_pandoc env username =
          if env.probeOk "pandoc" then some "pandoc" else none) := by
  have hfun : env.pathExists = env2.pathExists := funext hpe
  refine ⟨?_, ?_, ?_⟩
  · unfold find_pandoc
    rw [hfun, hsent]
  · intro p hp
    unfold find_pandoc
    rw [hp]
  · intro hp
    unfold find_pandoc
    rw [hp]

theorem C1_locator_first_existing_unprobed_witness :
    find_pandoc cexProbeEnv "alice" = find_pandoc cexProbeEnv2 "alice"
    ∧ (∀ p, (possible_paths "alice").find? cexProbeEnv.pathExists = some p →
        find_pandoc cexProbeEnv "alice" = some p)
    ∧ ((possible_paths "alice").find? cexProbeEnv.pathExists = none →
        find_pandoc cexProbeEnv "alice" =
          if cexProbeEnv.probeOk "pandoc" then some "pandoc" else none) :=
  C1_locator_first_existing_unprobed cexProbeEnv cexProbeEnv2 "alice"
    (fun _ => rfl) rfl

/-- C2: for every existing input file, `convert_single_file` of convert.py
raises `TypeError` (the keyword `add_toc` is not a parameter of
`MarkdownConverter.convert_file`, whose parameter is named `toc`), and the
CLI single-file path never invokes the conversion engine for any input. -/
theorem C2_convert_single_file_type_error :
    (∀ (engine : Engine) (fs : FS) (input_file : String) (output_file : Option String)
        (add_toc number_sections : Bool),
      fs.existsPath input_file = true →
      convert_single_file engine fs input_file output_file add_toc number_sections
        = (.exn "TypeError", false))
    ∧ (∀ (engine : Engine) (fs : FS) (input_file : String) (output_file : Option String)
        (add_toc number_sections : Bool),
      (convert_single_file engine fs input_file output_file add_toc number_sections).2
        = false) := by
  constructor
  · intro engine fs input_file output_file add_toc number_sections hin
    unfold convert_single_file
    rw [hin]
    rfl
  · intro engine fs input_file output_file add_toc number_sections
    unfold convert_single_file
    cases h : fs.existsPath input_file <;> simp [h]
    rw [if_neg (by decide)]

theorem C2_convert_single_file_type_error_witness :
    convert_single_file noopEngine ⟨["a.md"], []⟩ "a.md" none false false
      = (.exn "TypeError", false)
    ∧ (convert_single_file noopEngine ⟨["a.md"], []⟩ "a.md" none false false).2 = false :=
  ⟨C2_convert_single_file_type_error.1 noopEngine ⟨["a.md"], []⟩ "a.md" none false false rfl,
   C2_convert_single_file_type_error.2 noopEngine ⟨["a.md"], []⟩ "a.md" none false false⟩

/-- C3: for every existing input directory with at least one file matching
the pattern, `batch_convert` of convert.py raises `NameError` (the name
`setup_converter` is not defined; the defined helper is `get_converter`)
after having created the output directory; the filesystem it leaves behind
is exactly the input one plus the created output directory, so zero files
were converted. -/
theorem C3_batch_convert_name_error (engine : Engine) (fs : FS)
    (input_dir : String) (output_dir : Option String) (pattern : String)
    (hdir : fs.existsPath input_dir = true)
    (hmatch : fs.glob input_dir pattern ≠ []) :
    Convert.batch_convert engine fs input_dir output_dir pattern
      = (.exn "NameError",
         fs.mkdirParents (output_dir.getD (input_dir ++ "/converted"))) := by
  unfold Convert.batch_convert
  rw [hdir]
  simp only [Bool.not_true, Bool.false_eq_true, if_false, FS.glob_mkdirParents]
  rw [if_neg (by simpa [List.isEmpty_iff] using hmatch)]
  rfl

theorem C3_batch_convert_name_error_witness :
    Convert.batch_convert noopEngine ⟨["docs/a.md"], ["docs"]⟩ "docs" none "*.md"
      = (.exn "NameError",
         FS.mkdirParents ⟨["docs/a.md"], ["docs"]⟩ "docs/converted") :=
  C3_batch_convert_name_error noopEngine ⟨["docs/a.md"], ["docs"]⟩ "docs" none "*.md"
    rfl (by decide)

/-- C4 (counterexample): the claim says the extra arguments are appended
after the option flags.  With template `tpl.docx` (existing), toc and
section numbering requested, and extra arguments `["-V", "geometry"]`,
`convert_file` builds the list with the extra arguments first, not last. -/
theorem C4_extra_args_counterexample :
    buildArgs ⟨["tpl.docx"], []⟩ (some "tpl.docx") true true (some ["-V", "geometry"])
      = ["-V", "geometry", "--reference-doc", "tpl.docx", "--toc", "--number-sections"]
    ∧ buildArgs ⟨["tpl.docx"], []⟩ (some "tpl.docx") true true (some ["-V", "geometry"])
      ≠ ["--reference-doc", "tpl.docx", "--toc", "--number-sections", "-V", "geometry"] := by
  decide

/-- C4 (amended): in `convert_file`'s argument list the reference-template
flag (when the template is truthy and exists), the `--toc` flag (when
requested) and the `--number-sections` flag (when requested) all appear,
in that order, and any extra arguments appear verbatim BEFORE those option
flags (they seed the list that the flags are appended to); `convert_text`
accepts no extra arguments and builds exactly the flag part. -/
theorem C4_extra_args_precede_flags :
    (∀ (fs : FS) (template : Option String) (toc number_sections : Bool)
        (extra : List String),
      buildArgs fs template toc number_sections (some extra)
        = extra
          ++ (match template with
              | some t =>
                if t != "" && fs.existsPath t then ["--reference-doc", t] else []
              | none => [])
          ++ (if toc then ["--toc"] else [])
          ++ (if number_sections then ["--number-sections"] else []))
    ∧ (∀ (fs : FS) (template : Option String) (toc number_sections : Bool),
      buildArgsText fs template toc number_sections
        = buildArgs fs template toc number_sections none) := by
  constructor
  · intro fs template toc number_sections extra
    cases template with
    | none => cases toc <;> cases number_sections <;> simp [buildArgs]
    | some t =>
      cases h : (t != "" && fs.existsPath t) <;> cases toc <;>
        cases number_sections <;> simp [buildArgs, h]
  · intro fs template toc number_sections
    cases template with
    | none => rfl
    | some t =>
      cases h : (t != "" && fs.existsPath t) <;>
        simp [buildArgs, buildArgsText, h]

/-- C5: when the engine invocation returns (does not raise), `convert_file`
(for an existing input) and `convert_text` return `true` exactly when the
output file exists on the filesystem afterwards — whatever value the
engine reported. -/
theorem C5_success_iff_output_exists :
    (∀ (engine : Engine) (fs : FS) (input_file output_file : String)
        (template : Option String) (toc number_sections : Bool)
        (extra_args : Option (List String)),
      fs.existsPath input_file = true →
      (engine input_file output_file
        (buildArgs fs template toc number_sections extra_args)
        (ensureDir fs output_file)).raises = none →
      (MarkdownConverter.convert_file engine fs input_file output_file template
        toc number_sections extra_args).result
        = (engine input_file output_file
            (buildArgs fs template toc number_sections extra_args)
            (ensureDir fs output_file)).fsAfter.existsPath output_file)
    ∧ (∀ (engine : Engine) (fs : FS) (markdown_text output_file : String)
        (template : Option String) (toc number_sections : Bool),
      (engine markdown_text output_file
        (buildArgsText fs template toc number_sections)
        (ensureDir fs output_file)).raises = none →
      (MarkdownConverter.convert_text engine fs markdown_text output_file template
        toc number_sections).result
        = (engine markdown_text output_file
            (buildArgsText fs template toc number_sections)
            (ensureDir fs output_file)).fsAfter.existsPath output_file) := by
  constructor
  · intro engine fs input_file output_file template toc number_sections extra_args hin hret
    unfold MarkdownConverter.convert_file
    rw [hin]
    simp [hret]
  · intro engine fs markdown_text output_file template toc number_sections hret
    unfold MarkdownConverter.convert_text
    simp [hret]

theorem C5_success_iff_output_exists_witness :
    (MarkdownConverter.convert_file okEngine ⟨["a.md"], []⟩ "a.md" "out.docx"
        none false false none).result
      = (okEngine "a.md" "out.docx"
          (buildArgs ⟨["a.md"], []⟩ none false false none)
          (ensureDir ⟨["a.md"], []⟩ "out.docx")).fsAfter.existsPath "out.docx"
    ∧ (MarkdownConverter.convert_text noopEngine ⟨[], []⟩ "# hi" "out.docx"
        none false false).result
      = (noopEngine "# hi" "out.docx"
          (buildArgsText ⟨[], []⟩ none false false)
          (ensureDir ⟨[], []⟩ "out.docx")).fsAfter.existsPath "out.docx" :=
  ⟨C5_success_iff_output_exists.1 okEngine ⟨["a.md"], []⟩ "a.md" "out.docx"
      none false false none rfl rfl,
   C5_success_iff_output_exists.2 noopEngine ⟨[], []⟩ "# hi" "out.docx"
      none false false rfl⟩

/-- C6: when the input path does not exist, `convert_file` returns `false`,
does not invoke the engine, passes it no arguments, and leaves the
filesystem exactly as it was — no output file, no output directory, and any
existing file at the output path untouched. -/
theorem C6_missing_input_is_noop (engine : Engine) (fs : FS)
    (input_file output_file : String) (template : Option String)
    (toc number_sections : Bool) (extra_args : Option (List String))
    (h : fs.existsPath input_file = false) :
    MarkdownConverter.convert_file engine fs input_file output_file template
      toc number_sections extra_args = ⟨false, fs, false, none⟩ := by
  unfold MarkdownConverter.convert_file
  rw [h]
  rfl

theorem C6_missing_input_is_noop_witness :
    MarkdownConverter.convert_file okEngine ⟨["out.docx"], []⟩ "a.md" "out.docx"
      none false false none = ⟨false, ⟨["out.docx"], []⟩, false, none⟩ :=
  C6_missing_input_is_noop okEngine ⟨["out.docx"], []⟩ "a.md" "out.docx"
    none false false none rfl

/-- Invariant of the batch loop: starting from an accumulator whose keys
are disjoint from the upcoming names (all distinct) and whose
`success_count` counts its `true` entries, the fold appends exactly one
binding per file, in order, and keeps the count accurate. -/
theorem batch_foldl_invariant (engine : Engine) (output_dir : String)
    (template : Option String) (toc number_sections : Bool) (l : List String) :
    ∀ acc : BatchOutcome,
      (acc.results.map Prod.fst ++ l.map basename).Nodup →
      acc.success_count = ((acc.results.map Prod.snd).count true) →
      ((l.foldl (batchStep engine output_dir template toc number_sections) acc).results.map
          Prod.fst = acc.results.map Prod.fst ++ l.map basename)
      ∧ (l.foldl (batchStep engine output_dir template toc number_sections) acc).success_count
        = (((l.foldl (batchStep engine output_dir template toc number_sections)
            acc).results.map Prod.snd).count true) := by
  induction l with
  | nil =>
    intro acc hnd hsc
    exact ⟨by simp, by simpa using hsc⟩
  | cons f rest ih =>
    intro acc hnd hsc
    have hb : basename f ∉ acc.results.map Prod.fst := by
      intro hmem
      rcases List.nodup_append.mp hnd with ⟨-, -, hdisj⟩
      exact hdisj hmem (by simp)
    obtain ⟨v, fs2, hstep⟩ :
        ∃ v fs2, batchStep engine output_dir template toc number_sections acc f
          = ⟨acc.results ++ [(basename f, v)],
             acc.success_count + (if v then 1 else 0), fs2⟩ :=
      ⟨(MarkdownConverter.convert_file engine acc.fs f
          (derivedOutput output_dir f) template toc number_sections none).result,
       (MarkdownConverter.convert_file engine acc.fs f
          (derivedOutput output_dir f) template toc number_sections none).fs,
       by simp only [batchStep]; rw [dictInsert_of_not_mem _ _ _ hb]⟩
    rw [List.foldl_cons, hstep]
    have h1 : ((acc.results ++ [(basename f, v)]).map Prod.fst
        ++ rest.map basename).Nodup := by
      have heq : (acc.results ++ [(basename f, v)]).map Prod.fst ++ rest.map basename
          = acc.results.map Prod.fst ++ (f :: rest).map basename := by
        simp
      rw [heq]
      exact hnd
    have h2 : acc.success_count + (if v then 1 else 0)
        = (((acc.results ++ [(basename f, v)]).map Prod.snd).count true) := by
      rw [hsc]
      cases v <;> simp [List.count_append]
    obtain ⟨ih1, ih2⟩ := ih ⟨acc.results ++ [(basename f, v)],
      acc.success_count + (if v then 1 else 0), fs2⟩ h1 h2
    refine ⟨?_, ih2⟩
    rw [ih1]
    simp

/-- The batch driver of markdown_converter.py, on an existing input
directory whose matched files have pairwise-distinct names, produces one
result entry per matched file (keys in enumeration order) and a
`success_count` equal to the number of `true` entries. -/
theorem batch_convert_results (engine : Engine) (fs : FS)
    (input_dir output_dir : String) (template : Option String)
    (pattern : String) (toc number_sections : Bool)
    (hdir : fs.existsPath input_dir = true)
    (hnd : ((fs.glob input_dir pattern).map basename).Nodup) :
    ((MarkdownConverter.batch_convert engine fs input_dir output_dir template pattern
        toc number_sections).results.map Prod.fst
      = (fs.glob input_dir pattern).map basename)
    ∧ (MarkdownConverter.batch_convert engine fs input_dir output_dir template pattern
        toc number_sections).success_count
      = (((MarkdownConverter.batch_convert engine fs input_dir output_dir template pattern
          toc number_sections).results.map Prod.snd).count true) := by
  unfold MarkdownConverter.batch_convert
  rw [hdir]
  simp only [Bool.not_true, Bool.false_eq_true, if_false, FS.glob_mkdirParents]
  cases hemp : (fs.glob input_dir pattern).isEmpty
  · rw [if_neg (by simp [hemp])]
    have := batch_foldl_invariant engine output_dir template toc number_sections
      (fs.glob input_dir pattern) ⟨[], 0, fs.mkdirParents output_dir⟩
      (by simpa using hnd) (by simp)
    simpa using this
  · rw [if_pos (by simp [hemp])]
    have : fs.glob input_dir pattern = [] := by
      simpa [List.isEmpty_iff] using hemp
    simp [this]

/-- C7: any exception raised by the engine invocation is caught inside
`convert_file` and converted into a `false` return value (whether or not
the input existed); consequently a failing or crashing file does not abort
a batch — `batch_convert` still records one boolean per matched file name,
for every engine behavior, and no exception escapes the batch driver
(`batch_convert` is a total function into `BatchOutcome`). -/
theorem C7_exceptions_contained :
    (∀ (engine : Engine) (fs : FS) (input_file output_file : String)
        (template : Option String) (toc number_sections : Bool)
        (extra_args : Option (List String)) (e : String),
      (engine input_file output_file
        (buildArgs fs template toc number_sections extra_args)
        (ensureDir fs output_file)).raises = some e →
      (MarkdownConverter.convert_file engine fs input_file output_file template
        toc number_sections extra_args).result = false)
    ∧ (∀ (engine : Engine) (fs : FS) (input_dir output_dir : String)
        (template : Option String) (pattern : String) (toc number_sections : Bool),
      fs.existsPath input_dir = true →
      ((fs.glob input_dir pattern).map basename).Nodup →
      ((MarkdownConverter.batch_convert engine fs input_dir output_dir template pattern
          toc number_sections).results.map Prod.fst)
        = (fs.glob input_dir pattern).map basename) := by
  constructor
  · intro engine fs input_file output_file template toc number_sections extra_args e hr
    unfold MarkdownConverter.convert_file
    cases h : fs.existsPath input_file
    · simp
    · simp [hr]
  · intro engine fs input_dir output_dir template pattern toc number_sections hdir hnd
    exact (batch_convert_results engine fs input_dir output_dir template pattern
      toc number_sections hdir hnd).1

theorem C7_exceptions_contained_witness :
    (MarkdownConverter.convert_file raisingEngine ⟨["a.md"], []⟩ "a.md" "out.docx"
        none false false none).result = false
    ∧ ((MarkdownConverter.batch_convert mixedEngine ⟨["docs/a.md", "docs/b.md"], ["docs"]⟩
        "docs" "out" none "*.md" false false).results.map Prod.fst)
      = (FS.glob ⟨["docs/a.md", "docs/b.md"], ["docs"]⟩ "docs" "*.md").map basename :=
  ⟨C7_exceptions_contained.1 raisingEngine ⟨["a.md"], []⟩ "a.md" "out.docx" none false false
      none "RuntimeError" rfl,
   C7_exceptions_contained.2 mixedEngine ⟨["docs/a.md", "docs/b.md"], ["docs"]⟩ "docs" "out"
      none "*.md" false false rfl (by decide)⟩

/-- C8: for any engine behavior (any mixture of succeeding and failing
files), the mapping returned by `batch_convert` has exactly one entry per
matched file — its keys are exactly the matched names, so its length is the
number of matched files — and `success_count` equals the number of `true`
entries in the mapping. -/
theorem C8_batch_completeness (engine : Engine) (fs : FS)
    (input_dir output_dir : String) (template : Option String)
    (pattern : String) (toc number_sections : Bool)
    (hdir : fs.existsPath input_dir = true)
    (hnd : ((fs.glob input_dir pattern).map basename).Nodup) :
    (MarkdownConverter.batch_convert engine fs input_dir output_dir template pattern
        toc number_sections).results.length
      = (fs.glob input_dir pattern).length
    ∧ ((MarkdownConverter.batch_convert engine fs input_dir output_dir template pattern
        toc number_sections).results.map Prod.fst
      = (fs.glob input_dir pattern).map basename)
    ∧ (MarkdownConverter.batch_convert engine fs input_dir output_dir template pattern
        toc number_sections).success_count
      = (((MarkdownConverter.batch_convert engine fs input_dir output_dir template pattern
          toc number_sections).results.map Prod.snd).count true) := by
  obtain ⟨h1, h2⟩ := batch_convert_results engine fs input_dir output_dir template pattern
    toc number_sections hdir hnd
  refine ⟨?_, h1, h2⟩
  have := congrArg List.length h1
  simpa using this

theorem C8_batch_completeness_witness :
    (MarkdownConverter.batch_convert mixedEngine ⟨["docs/a.md", "docs/b.md", "docs/n.txt"],
        ["docs"]⟩ "docs" "out" none "*.md" false false).results.length
      = (FS.glob ⟨["docs/a.md", "docs/b.md", "docs/n.txt"], ["docs"]⟩ "docs" "*.md").length
    ∧ ((MarkdownConverter.batch_convert mixedEngine ⟨["docs/a.md", "docs/b.md", "docs/n.txt"],
        ["docs"]⟩ "docs" "out" none "*.md" false false).results.map Prod.fst
      = (FS.glob ⟨["docs/a.md", "docs/b.md", "docs/n.txt"], ["docs"]⟩ "docs" "*.md").map basename)
    ∧ (MarkdownConverter.batch_convert mixedEngine ⟨["docs/a.md", "docs/b.md", "docs/n.txt"],
        ["docs"]⟩ "docs" "out" none "*.md" false false).success_count
      = (((MarkdownConverter.batch_convert mixedEngine ⟨["docs/a.md", "docs/b.md", "docs/n.txt"],
          ["docs"]⟩ "docs" "out" none "*.md" false false).results.map Prod.snd).count true) :=
  C8_batch_completeness mixedEngine ⟨["docs/a.md", "docs/b.md", "docs/n.txt"], ["docs"]⟩
    "docs" "out" none "*.md" false false rfl (by decide)

/-- C9: the derived output path of a batch item whose name is `X.md` (any
nonempty stem `X`, spaces and non-ASCII characters included) is `X.docx`
inside the resolved output directory. -/
theorem C9_naming_law (output_dir md_file X : String) (hX : X ≠ "")
    (hname : basename md_file = X ++ ".md") :
    derivedOutput output_dir md_file = output_dir ++ "/" ++ X ++ ".docx" := by
  unfold derivedOutput
  rw [hname, stem_append_md X hX]

theorem C9_naming_law_witness :
    derivedOutput "out" "docs/héllo wörld.md" = "out" ++ "/" ++ "héllo wörld" ++ ".docx" :=
  C9_naming_law "out" "docs/héllo wörld.md" "héllo wörld" (by decide) (by decide)

/-- C10: `batch_convert` neither raises (it is a total function into
`BatchOutcome` by construction) nor converts anything when the input
directory does not exist — it returns the empty mapping with zero count and
an unchanged filesystem — and when zero files match the pattern it likewise
returns the empty mapping with zero count. -/
theorem C10_empty_batch (engine : Engine) (fs : FS) (input_dir output_dir : String)
    (template : Option String) (pattern : String) (toc number_sections : Bool) :
    (fs.existsPath input_dir = false →
      MarkdownConverter.batch_convert engine fs input_dir output_dir template pattern
        toc number_sections = ⟨[], 0, fs⟩)
    ∧ (fs.glob input_dir pattern = [] →
      (MarkdownConverter.batch_convert engine fs input_dir output_dir template pattern
        toc number_sections).results = []
      ∧ (MarkdownConverter.batch_convert engine fs input_dir output_dir template pattern
        toc number_sections).success_count = 0) := by
  constructor
  · intro h
    unfold MarkdownConverter.batch_convert
    rw [h]
    rfl
  · intro h
    unfold MarkdownConverter.batch_convert
    cases hdir : fs.existsPath input_dir
    · simp
    · simp [h]

theorem C10_empty_batch_witness :
    MarkdownConverter.batch_convert noopEngine ⟨[], []⟩ "docs" "out" none "*.md" false false
      = ⟨[], 0, ⟨[], []⟩⟩
    ∧ ((MarkdownConverter.batch_convert noopEngine ⟨["docs/readme.txt"], ["docs"]⟩ "docs"
        "out" none "*.md" false false).results = []
      ∧ (MarkdownConverter.batch_convert noopEngine ⟨["docs/readme.txt"], ["docs"]⟩ "docs"
        "out" none "*.md" false false).success_count = 0) :=
  ⟨(C10_empty_batch noopEngine ⟨[], []⟩ "docs" "out" none "*.md" false false).1 rfl,
   (C10_empty_batch noopEngine ⟨["docs/readme.txt"], ["docs"]⟩ "docs" "out" none "*.md"
      false false).2 (by decide)⟩
